import Mathlib

/-!
Verification development for the `backend-fastapi-py` crawl service of
`reposy/llms-gui`.

The Python source is embedded shallowly:

* `services/web_crawler.py` — the crawl orchestration engine.  Every await
  against the external browser driver (playwright start/launch/new_page,
  `set_extra_http_headers`, `page.goto`, `wait_for_load_state`,
  `wait_for_selector`, `content_frame`, `query_selector`, `inner_html`,
  `title`, `content`, `query_selector_all` + `inner_text`) is an oracle
  outcome recorded in an `Env` value: either a returned value or a raised
  exception.  Given an `Env` and the call arguments, `crawl_webpage` below is
  a deterministic function computing the same result record the Python
  function returns, together with how many times the browser process was
  acquired and closed.
* `services/html_parser.py` — the static-HTML extraction path
  (`extract_element_data`, `parse_html_content`), with BeautifulSoup queries
  (`select`, `select_one`, attribute access) likewise supplied by an oracle.
-/

set_option autoImplicit false

namespace LlmsGui

/-- A raised Python exception: whether it is a `PlaywrightError` (the first
`except` clause of `crawl_webpage` matches it) and its `str(...)` message. -/
structure Exn where
  isPlaywright : Bool
  msg : String
deriving DecidableEq

/-- Character-list prefix test, used to model Python's `in` substring test. -/
def charsHavePrefix : List Char → List Char → Bool
  | [], _ => true
  | _ :: _, [] => false
  | p :: ps, c :: cs => p == c && charsHavePrefix ps cs

/-- Substring occurrence over character lists. -/
def containsSubChars (pat : List Char) : List Char → Bool
  | [] => charsHavePrefix pat []
  | c :: rest => charsHavePrefix pat (c :: rest) || containsSubChars pat rest

/-- Models Python's `pat in s` substring test on strings. -/
def containsSub (s pat : String) : Bool :=
  containsSubChars pat.toList s.toList

/-- Whitespace test for Python `str.strip` modelling. -/
def isPyWS (c : Char) : Bool :=
  c == ' ' || c == '\t' || c == '\n' || c == '\r' || c == '\x0b' || c == '\x0c'

/-- Strip leading and trailing whitespace from a character list. -/
def stripChars (l : List Char) : List Char :=
  ((l.dropWhile isPyWS).reverse.dropWhile isPyWS).reverse

/-- Models Python's `s.strip()`. -/
def pyStrip (s : String) : String :=
  (stripChars s.toList).asString

/-- Split a character list at newline characters (models `str.splitlines` for
newline-separated text). -/
def splitNl : List Char → List (List Char)
  | [] => [[]]
  | c :: rest =>
    if c == '\n' then [] :: splitNl rest
    else
      match splitNl rest with
      | [] => [[c]]
      | h :: t => (c :: h) :: t

/-- Join character-list lines with newline separators (models `'\n'.join`). -/
def joinNl : List (List Char) → List Char
  | [] => []
  | [l] => l
  | l :: rest => l ++ '\n' :: joinNl rest

/-- Models line `129` of `web_crawler.py`:
`'\n'.join(line for line in raw_text.splitlines() if line.strip())`. -/
def joinNonblankLines (s : String) : String :=
  (joinNl ((splitNl s.toList).filter (fun l => !(stripChars l).isEmpty))).asString

/-- Models `text_content.strip() if text_content else ""` from
`_extract_selectors_data` (line 152). -/
def stripOrEmpty (t : String) : String :=
  if t = "" then "" else pyStrip t

/-- Outcome of `_setup_browser_and_page` (lines 15–21): `playwright.start()`
may raise, `chromium.launch()` may raise, and `browser.new_page()` may raise
after the browser was already launched; otherwise the pair is returned. -/
inductive SetupOutcome where
  | ok
  | startFail (e : Exn)
  | launchFail (e : Exn)
  | newPageFail (e : Exn)
deriving DecidableEq

/-- Whether the browser process was launched (acquired) under the given setup
outcome: `chromium.launch` succeeded exactly in the `ok` and `newPageFail`
cases. -/
def browserLaunched : SetupOutcome → Bool
  | .ok => true
  | .startFail _ => false
  | .launchFail _ => false
  | .newPageFail _ => true

/-- Whether `crawl_webpage`'s local variable `browser` was bound: only when
`_setup_browser_and_page` returned, i.e. the tuple assignment on line 221
completed. -/
def browserVarBound : SetupOutcome → Bool
  | .ok => true
  | _ => false

/-- Outcome of `_find_target_frame`'s interaction with the driver
(lines 63–79): the selector wait may return an element whose
`content_frame()` resolves (`foundFrame`), an element without a resolvable
frame, no element, or it may raise. -/
inductive FrameOutcome where
  | foundFrame
  | foundNoFrame
  | notFound
  | pwError (m : String)
  | otherError (m : String)
deriving DecidableEq

/-- The resolved context: the main page or the requested frame
(`Union[Page, Frame]` in the source). -/
inductive Ctx where
  | page
  | frame
deriving DecidableEq

/-- Collapsed value stored per field by `_extract_selectors_data`:
`None`, a scalar string, or a list of strings. -/
inductive Value where
  | vNull
  | vStr (s : String)
  | vList (l : List String)
deriving DecidableEq

/-- Oracle for one crawl: the outcome of every driver interaction of
`crawl_webpage` and its helpers. `soupGetText` abstracts the BeautifulSoup
pipeline of `_extract_content` (parse, drop script/style, `get_text`) as a
function of the page markup; `queryAll` gives, per selector, the list of
`inner_text` results in document order, or the exception message if querying
or reading any element raised. -/
structure Env where
  setup : SetupOutcome
  setHeaders : Option Exn
  goto : Option Exn
  idleWait : Option Exn
  frameFind : FrameOutcome
  queryElem : Except Exn Bool
  innerHtml : Except Exn String
  titleRead : Except String String
  contentRead : Except String String
  soupGetText : String → String
  queryAll : String → Except String (List String)

/-- The arguments of `crawl_webpage` (lines 171–179).  The two
`wait_for_selector_*` arguments and `headers`/`timeout` never influence the
returned record: `_wait_for_optional_selector` swallows every error
(lines 95–104) and produces no output, and the header/timeout values only
parameterize driver calls whose outcomes the `Env` oracle already fixes. -/
structure CrawlArgs where
  url : String
  iframe_selector : Option String
  wait_for_selector_on_page : Option String
  wait_for_selector_in_iframe : Option String
  extract_selectors : Option (List (String × String))
  extract_element_selector : Option String
  timeout : Int
  headers : Option (List (String × String))
deriving DecidableEq

/-- The result dictionary of `crawl_webpage` (lines 200–209), with
`extracted_data` as an insertion-ordered key/value list. -/
structure CrawlResult where
  url : String
  title : Option String
  text : Option String
  html : Option String
  extracted_content : Option String
  extracted_data : List (String × Value)
  status : String
  error : Option String
deriving DecidableEq

/-- The initial result record of lines 200–209. -/
def initResult (url : String) : CrawlResult :=
  ⟨url, none, none, none, none, [], "success", none⟩

/-- What one crawl does: the returned record, whether a browser process was
launched, and how many times `browser.close()` ran. -/
structure CrawlOutput where
  result : CrawlResult
  browserAcquired : Bool
  browserClosed : Nat
deriving DecidableEq

/-- Message prefix attached by the two `except` clauses of `crawl_webpage`
(lines 279–288). -/
def exnPrefix (e : Exn) : String :=
  if e.isPlaywright then "Playwright Error: " else "Unexpected Error: "

/-- The catch blocks of `crawl_webpage` (lines 279–288): overwrite `status`
and `error`, keep all other fields. -/
def applyCatch (r : CrawlResult) (e : Exn) : CrawlResult :=
  { r with status := "error", error := some (exnPrefix e ++ e.msg) }

/-- The downgrade test of `_navigate_and_wait` (lines 45–52): a
`PlaywrightError` whose message contains `net::ERR_ABORTED` or `Timeout` is
logged as a warning and swallowed; everything else is re-raised. -/
def navDowngraded (e : Exn) : Bool :=
  e.isPlaywright && (containsSub e.msg "net::ERR_ABORTED" || containsSub e.msg "Timeout")

/-- The exception `_navigate_and_wait` propagates, if any (lines 36–55).
If `page.goto` raises, the network-idle wait is skipped; a downgraded error
is swallowed. -/
def navPropagate (env : Env) : Option Exn :=
  match env.goto with
  | some e => if navDowngraded e then none else some e
  | none =>
    match env.idleWait with
    | some e => if navDowngraded e then none else some e
    | none => none

/-- `_find_target_frame` (lines 57–81): the main page when no selector is
given; the frame only when the element was found and its content frame
resolved; the main page on every failure (element missing, no content frame,
any exception — all caught). -/
def resolveCtx (env : Env) (iframe_selector : Option String) : Ctx :=
  match iframe_selector with
  | none => .page
  | some _ =>
    match env.frameFind with
    | .foundFrame => .frame
    | _ => .page

/-- `_extract_content` (lines 106–135): the title is read only for the page
context (a failure is caught, leaving it `None`); reading the markup yields
text and, when `include_html`, the markup itself; a failure reading the
markup is caught, leaving text and html `None`. -/
def extract_content (env : Env) (ctx : Ctx) (include_html : Bool) :
    Option String × Option String × Option String :=
  let title : Option String :=
    match ctx with
    | .page =>
      match env.titleRead with
      | .ok t => some t
      | .error _ => none
    | .frame => none
  match env.contentRead with
  | .ok page_content =>
    let html := if include_html then some page_content else none
    let text := joinNonblankLines (env.soupGetText page_content)
    (title, some text, html)
  | .error _ => (title, none, none)

/-- Per-field collapse of `_extract_selectors_data` (lines 145–165): an
exception yields `None`; otherwise zero matches yield `None`, one match the
single stripped text, several matches the stripped texts in order. -/
def collapseField (o : Except String (List String)) : Value :=
  match o with
  | .error _ => .vNull
  | .ok texts =>
    match texts.map stripOrEmpty with
    | [] => .vNull
    | [t] => .vStr t
    | ts => .vList ts

/-- `_extract_selectors_data` (lines 137–167): `{}` when no selectors are
given, otherwise one entry per `name: selector` pair. -/
def extractSelectorsData (env : Env) (selectors : Option (List (String × String))) :
    List (String × Value) :=
  match selectors with
  | none => []
  | some l => l.map (fun p => (p.1, collapseField (env.queryAll p.2)))

/-- Step 5 of `crawl_webpage` (lines 244–272): with an
`extract_element_selector`, query it (a raised error propagates), store the
element's `inner_html` and null out `html` when found, or set the error
status when not; without one, run `_extract_content` on the resolved context
with full HTML (`needs_full_html = True`, line 268). -/
def crawlStep5 (env : Env) (args : CrawlArgs) (ctx : Ctx) : Except Exn CrawlResult :=
  match args.extract_element_selector with
  | some sel =>
    match env.queryElem with
    | .error e => .error e
    | .ok true =>
      match env.innerHtml with
      | .error e => .error e
      | .ok h => .ok { initResult args.url with extracted_content := some h, html := none }
    | .ok false =>
      .ok { initResult args.url with
            status := "error",
            error := some ("Could not find element matching selector: " ++ sel) }
  | none =>
    match extract_content env ctx true with
    | (t, tx, h) => .ok { initResult args.url with title := t, text := tx, html := h }

/-- Steps 5 and 6 of `crawl_webpage` for an already resolved context: step 6
(line 276) runs the structured-selector extraction only while the status is
still `success`. -/
def crawlResultOf (env : Env) (args : CrawlArgs) (ctx : Ctx) : Except Exn CrawlResult :=
  match crawlStep5 env args ctx with
  | .error e => .error e
  | .ok r =>
    .ok (if r.status = "success"
         then { r with extracted_data := extractSelectorsData env args.extract_selectors }
         else r)

/-- The whole `try` block of `crawl_webpage`: setup, headers, navigation,
context resolution, extraction. The selector waits of steps 2 and 4 swallow
every error and change nothing observable, so they contribute no case. -/
def crawlTry (env : Env) (args : CrawlArgs) : Except Exn CrawlResult :=
  match env.setup with
  | .startFail e => .error e
  | .launchFail e => .error e
  | .newPageFail e => .error e
  | .ok =>
    match env.setHeaders with
    | some e => .error e
    | none =>
      match navPropagate env with
      | some e => .error e
      | none => crawlResultOf env args (resolveCtx env args.iframe_selector)

/-- `crawl_webpage` (lines 171–294): run the `try` block, apply the catch
clauses to any propagated exception, and always run the `finally` block,
which closes the browser exactly when the local `browser` variable was
bound. -/
def crawl_webpage (env : Env) (args : CrawlArgs) : CrawlOutput :=
  let res :=
    match crawlTry env args with
    | .ok r => r
    | .error e => applyCatch (initResult args.url) e
  ⟨res, browserLaunched env.setup, if browserVarBound env.setup then 1 else 0⟩

/-- The timeout allocation of `crawl_webpage` lines 215–218, over exact
rationals: `timeout * 0.6`, `timeout * 0.1`, the fixed `5000`, and
`timeout * 0.15`. -/
structure TimeoutBudget where
  nav : ℚ
  pageWait : ℚ
  iframeFind : ℚ
  iframeWait : ℚ
deriving DecidableEq

/-- Lines 215–218 of `web_crawler.py` (the 5000 is also what
`_find_target_frame` passes at line 65). -/
def allocateBudget (timeout : ℚ) : TimeoutBudget :=
  ⟨timeout * 0.6, timeout * 0.1, 5000, timeout * 0.15⟩

/-! ### Static-HTML path — `services/html_parser.py` -/

/-- A BeautifulSoup element as the static extractor observes it:
`get_text(strip=True)` output, `str(element)` output, and its attribute
mapping. -/
structure SElement where
  textContent : String
  htmlRepr : String
  attrs : List (String × String)
deriving DecidableEq

/-- First-match lookup in an attribute list. -/
def attrLookup (attrs : List (String × String)) (k : String) : Option String :=
  match attrs with
  | [] => none
  | (k', v) :: rest => if k' = k then some v else attrLookup rest k

/-- Models BeautifulSoup's `element.get(name, default)`. -/
def elementGet (el : SElement) (k : String) (default : String) : String :=
  (attrLookup el.attrs k).getD default

/-- Python truthiness of an `Optional[str]`. -/
def pyTruthyOptStr : Option String → Bool
  | none => false
  | some s => !(s = "")

/-- `extract_element_data` (html_parser.py lines 17–41): `text` yields the
stripped text, `html` the serialized element, `attribute` (with a truthy
attribute name) `element.get(attribute_name, "")`, anything else `None`. -/
def extract_element_data (el : SElement) (target : String)
    (attribute_name : Option String) : Option String :=
  if target = "text" then some el.textContent
  else if target = "html" then some el.htmlRepr
  else if target = "attribute" ∧ pyTruthyOptStr attribute_name = true then
    some (elementGet el (attribute_name.getD "") "")
  else none

/-- `ExtractionRule` (html_parser.py lines 9–15). -/
structure ExtractionRule where
  name : String
  selector : String
  target : String
  attribute_name : Option String
  multiple : Bool
deriving DecidableEq

/-- A value stored under one rule's key by `parse_html_content`: `None`, a
string, a list, or the per-rule failure object `{"error": msg}`. -/
inductive RVal where
  | rNull
  | rStr (s : String)
  | rList (l : List String)
  | rErrObj (msg : String)
deriving DecidableEq

/-- What `parse_html_content` returns: either the per-rule dictionary or the
top-level `{"error": msg}` record produced by input validation or the outer
`except` clause. -/
inductive PResult where
  | fields (d : List (String × RVal))
  | topError (msg : String)
deriving DecidableEq

/-- Oracle for one `parse_html_content` call: whether constructing the soup
raises, the elements each selector yields under `select` / `select_one`, and
whether processing a selector raises (bad selector syntax etc., caught by
the per-rule `except`). -/
structure PEnv where
  soupFail : Option String
  select : String → List SElement
  selectOne : String → Option SElement
  ruleExn : String → Option String

/-- Python-dict assignment `d[k] = v` on an insertion-ordered key/value
list: replaces the value of an existing key in place, appends otherwise. -/
def dictSet (d : List (String × RVal)) (k : String) (v : RVal) : List (String × RVal) :=
  match d with
  | [] => [(k, v)]
  | (k', v') :: rest => if k' = k then (k, v) :: rest else (k', v') :: dictSet rest k v

/-- Python-dict lookup `d[k]` on the same representation. -/
def dictLookup (d : List (String × RVal)) (k : String) : Option RVal :=
  match d with
  | [] => none
  | (k', v) :: rest => if k' = k then some v else dictLookup rest k

/-- One iteration of the rule loop of `parse_html_content` (lines 67–93):
a raised exception becomes `{"error": msg}`; with `multiple`, `select` plus
per-element extraction with `None`s filtered out; without it, `select_one`
and a scalar (or `None`). -/
def processRule (env : PEnv) (rule : ExtractionRule) : RVal :=
  match env.ruleExn rule.selector with
  | some m => .rErrObj m
  | none =>
    if rule.multiple then
      .rList (((env.select rule.selector).map
        (fun el => extract_element_data el rule.target rule.attribute_name)).filterMap id)
    else
      match env.selectOne rule.selector with
      | some el =>
        match extract_element_data el rule.target rule.attribute_name with
        | some s => .rStr s
        | none => .rNull
      | none => .rNull

/-- The rule loop of `parse_html_content`, building the result dictionary. -/
def parseFields (env : PEnv) (rules : List ExtractionRule) : List (String × RVal) :=
  rules.foldl (fun d rule => dictSet d rule.name (processRule env rule)) []

/-- `parse_html_content` (html_parser.py lines 43–100): an empty (falsy)
input string or a soup-construction failure yields the top-level error
record; otherwise the per-rule dictionary. -/
def parse_html_content (env : PEnv) (html_string : String)
    (rules : List ExtractionRule) : PResult :=
  if html_string = "" then .topError "유효하지 않은 HTML 입력"
  else
    match env.soupFail with
    | some m => .topError ("HTML 파싱 중 오류: " ++ m)
    | none => .fields (parseFields env rules)

/-! ### Concrete oracles used by counterexamples and witnesses -/

/-- An environment in which every driver interaction succeeds: the page has
title `Example Domain`, its markup reads back verbatim, and every selector
query returns a single element with text `x`. -/
def okEnv : Env where
  setup := .ok
  setHeaders := none
  goto := none
  idleWait := none
  frameFind := .foundFrame
  queryElem := .ok true
  innerHtml := .ok "<div>inner</div>"
  titleRead := .ok "Example Domain"
  contentRead := .ok "<html><head><title>Example Domain</title></head></html>"
  soupGetText := fun s => s
  queryAll := fun _ => .ok ["x"]

/-- The arguments of the spec's own scenario: a plain crawl of
`https://example.com` with no iframe, no waits, no selectors. -/
def okArgs : CrawlArgs where
  url := "https://example.com"
  iframe_selector := none
  wait_for_selector_on_page := none
  wait_for_selector_in_iframe := none
  extract_selectors := none
  extract_element_selector := none
  timeout := 10000
  headers := none

/-- A static-HTML oracle whose soup builds fine, in which no selector
matches anything, and in which the selector `!!bad` raises. -/
def pEnvW : PEnv where
  soupFail := none
  select := fun _ => []
  selectOne := fun _ => none
  ruleExn := fun s => if s = "!!bad" then some "Invalid selector" else none

/-! ## Helper lemmas -/

/-- Every `ok` outcome of step 5 is either still the pristine
success/no-error record or the element-not-found error record. -/
theorem crawlStep5_ok_inv (env : Env) (args : CrawlArgs) (ctx : Ctx) (r : CrawlResult)
    (h : crawlStep5 env args ctx = .ok r) :
    (r.status = "success" ∧ r.error = none) ∨ (r.status = "error" ∧ r.error ≠ none) := by
  unfold crawlStep5 at h
  cases hx : args.extract_element_selector with
  | none =>
    rw [hx] at h
    injection h with h
    subst h
    left
    exact ⟨rfl, rfl⟩
  | some sel =>
    rw [hx] at h
    cases hq : env.queryElem with
    | error e =>
      rw [hq] at h
      exact Except.noConfusion h
    | ok b =>
      rw [hq] at h
      cases b with
      | false =>
        injection h with h
        subst h
        right
        exact ⟨rfl, by simp⟩
      | true =>
        cases hih : env.innerHtml with
        | error e =>
          rw [hih] at h
          exact Except.noConfusion h
        | ok s =>
          rw [hih] at h
          injection h with h
          subst h
          left
          exact ⟨rfl, rfl⟩

/-- Step 6 preserves the status/error classification of step 5. -/
theorem crawlResultOf_ok_inv (env : Env) (args : CrawlArgs) (ctx : Ctx) (r : CrawlResult)
    (h : crawlResultOf env args ctx = .ok r) :
    (r.status = "success" ∧ r.error = none) ∨ (r.status = "error" ∧ r.error ≠ none) := by
  unfold crawlResultOf at h
  split at h
  · exact absurd h (by simp)
  · rename_i r' hstep
    simp only [Except.ok.injEq] at h
    subst h
    rcases crawlStep5_ok_inv env args ctx r' hstep with ⟨hs, he⟩ | ⟨hs, he⟩
    · left
      rw [if_pos hs]
      exact ⟨hs, he⟩
    · right
      rw [if_neg (by rw [hs]; decide)]
      exact ⟨hs, he⟩

/-- Every `ok` outcome of the whole `try` block satisfies the status/error
classification. -/
theorem crawlTry_ok_inv (env : Env) (args : CrawlArgs) (r : CrawlResult)
    (h : crawlTry env args = .ok r) :
    (r.status = "success" ∧ r.error = none) ∨ (r.status = "error" ∧ r.error ≠ none) := by
  unfold crawlTry at h
  cases hsu : env.setup with
  | startFail e => rw [hsu] at h; exact Except.noConfusion h
  | launchFail e => rw [hsu] at h; exact Except.noConfusion h
  | newPageFail e => rw [hsu] at h; exact Except.noConfusion h
  | ok =>
    rw [hsu] at h
    cases hsh : env.setHeaders with
    | some e => rw [hsh] at h; exact Except.noConfusion h
    | none =>
      rw [hsh] at h
      cases hnp : navPropagate env with
      | some e => rw [hnp] at h; exact Except.noConfusion h
      | none =>
        rw [hnp] at h
        exact crawlResultOf_ok_inv _ _ _ _ h

/-- Writing a key makes it readable back. -/
theorem dictLookup_dictSet_self (d : List (String × RVal)) (k : String) (v : RVal) :
    dictLookup (dictSet d k v) k = some v := by
  induction d with
  | nil => simp [dictSet, dictLookup]
  | cons p rest ih =>
    obtain ⟨k', v'⟩ := p
    by_cases h : k' = k <;> simp [dictSet, dictLookup, h, ih]

/-- Writing one key leaves every other key unchanged. -/
theorem dictLookup_dictSet_ne (d : List (String × RVal)) (k q : String) (v : RVal)
    (h : q ≠ k) :
    dictLookup (dictSet d k v) q = dictLookup d q := by
  have hkq : ¬k = q := Ne.symm h
  induction d with
  | nil => simp [dictSet, dictLookup, hkq]
  | cons p rest ih =>
    obtain ⟨k', v'⟩ := p
    by_cases hk : k' = k
    · subst hk
      simp [dictSet, dictLookup, hkq]
    · simp [dictSet, dictLookup, hk, ih]

/-- Folding rules none of which carries the key `k` leaves `k`'s entry
unchanged. -/
theorem ruleFold_lookup_notmem (env : PEnv) (rules : List ExtractionRule)
    (d : List (String × RVal)) (k : String) (h : ∀ r ∈ rules, r.name ≠ k) :
    dictLookup (rules.foldl (fun d rule => dictSet d rule.name (processRule env rule)) d) k
      = dictLookup d k := by
  induction rules generalizing d with
  | nil => rfl
  | cons r rest ih =>
    rw [List.foldl_cons, ih _ (fun r' hr' => h r' (List.mem_cons_of_mem r hr')),
      dictLookup_dictSet_ne _ _ _ _ (Ne.symm (h r (List.mem_cons_self r rest)))]

/-- Under unique rule names, the folded dictionary maps each rule's name to
that rule's processed value. -/
theorem ruleFold_lookup (env : PEnv) (rules : List ExtractionRule)
    (d : List (String × RVal)) (rule : ExtractionRule)
    (hnd : (rules.map ExtractionRule.name).Nodup) (hmem : rule ∈ rules) :
    dictLookup (rules.foldl (fun d rule => dictSet d rule.name (processRule env rule)) d)
        rule.name = some (processRule env rule) := by
  induction rules generalizing d with
  | nil => cases hmem
  | cons r rest ih =>
    rw [List.map_cons, List.nodup_cons] at hnd
    rw [List.foldl_cons]
    rcases List.mem_cons.mp hmem with rfl | hm
    · rw [ruleFold_lookup_notmem env rest _ _
        (fun r' hr' e => hnd.1 (by rw [← e]; exact List.mem_map_of_mem ExtractionRule.name hr'))]
      exact dictLookup_dictSet_self _ _ _
    · exact ih _ hnd.2 hm

/-! ## Claims -/

/-- C5: for every total budget `t`, the allocator assigns the navigation
phase 60% of `t`, the post-navigation page-selector wait 10% of `t`, the
frame-selector wait 15% of `t`, and the frame-discovery wait a fixed 5000 ms
ceiling independent of `t`. -/
theorem c5_timeout_budget_shares : ∀ t : ℚ,
    (allocateBudget t).nav = 60 / 100 * t ∧
    (allocateBudget t).pageWait = 10 / 100 * t ∧
    (allocateBudget t).iframeWait = 15 / 100 * t ∧
    (allocateBudget t).iframeFind = 5000 ∧
    ∀ u : ℚ, (allocateBudget u).iframeFind = (allocateBudget t).iframeFind := by
  intro t
  refine ⟨?_, ?_, ?_, rfl, fun u => rfl⟩ <;>
    · show t * _ = _
      norm_num
      ring

/-- C6: for every field name and selector in `extract_selectors`, the
structured-field extractor produces null on zero matches, the single
stripped text as a scalar (never a one-element list) on exactly one match,
and the ordered list of stripped texts on more than one match. -/
theorem c6_selector_collapse (env : Env) (l : List (String × String))
    (nm sel : String) (texts : List String)
    (hmem : (nm, sel) ∈ l) (hq : env.queryAll sel = .ok texts) :
    ((nm, collapseField (Except.ok texts)) ∈ extractSelectorsData env (some l)) ∧
    (texts = [] → collapseField (Except.ok texts) = Value.vNull) ∧
    (∀ t, texts = [t] → collapseField (Except.ok texts) = Value.vStr (stripOrEmpty t)) ∧
    (2 ≤ texts.length →
      collapseField (Except.ok texts) = Value.vList (texts.map stripOrEmpty)) := by
  refine ⟨?_, ?_, ?_, ?_⟩
  · have hm := List.mem_map_of_mem
      (fun p : String × String => (p.1, collapseField (env.queryAll p.2))) hmem
    show (nm, collapseField (Except.ok texts)) ∈
      l.map fun p => (p.1, collapseField (env.queryAll p.2))
    simpa [hq] using hm
  · rintro rfl; rfl
  · rintro t rfl; rfl
  · intro hlen
    rcases texts with _ | ⟨a, _ | ⟨b, rest⟩⟩
    · simp at hlen
    · simp at hlen
    · rfl

/-- Witness for C6 at a concrete two-match query. -/
theorem c6_selector_collapse_witness :
    (("h", collapseField (Except.ok ["a ", " b"])) ∈
      extractSelectorsData { okEnv with queryAll := fun _ => .ok ["a ", " b"] }
        (some [("h", "h1")])) ∧
    collapseField (Except.ok ["a ", " b"]) = Value.vList ["a", "b"] :=
  ⟨(c6_selector_collapse { okEnv with queryAll := fun _ => .ok ["a ", " b"] }
      [("h", "h1")] "h" "h1" ["a ", " b"] (by simp) rfl).1,
   (c6_selector_collapse { okEnv with queryAll := fun _ => .ok ["a ", " b"] }
      [("h", "h1")] "h" "h1" ["a ", " b"] (by simp) rfl).2.2.2 (by decide)⟩

/-- C9 counterexample: in the static-HTML path, an `attribute` rule whose
matched element lacks the named attribute yields the empty string, not
null — `element.get(attribute_name, "")` defaults to `""`
(html_parser.py line 35). -/
theorem c9_counterexample :
    extract_element_data ⟨"Example", "<a>Example</a>", []⟩ "attribute" (some "href")
        = some "" ∧
    extract_element_data ⟨"Example", "<a>Example</a>", []⟩ "attribute" (some "href")
        ≠ none := by
  decide

/-- C9 (amended): for every element that does not carry the named (non-empty)
attribute, the extracted value is the empty string `""`, not null. -/
theorem c9_absent_attribute_empty (el : SElement) (a : String)
    (ha : a ≠ "") (hl : attrLookup el.attrs a = none) :
    extract_element_data el "attribute" (some a) = some "" := by
  simp [extract_element_data, pyTruthyOptStr, elementGet, hl, ha]

/-- Witness for C9's amended claim at a concrete attribute-free element. -/
theorem c9_absent_attribute_empty_witness :
    extract_element_data ⟨"x", "<p>x</p>", []⟩ "attribute" (some "href") = some "" :=
  c9_absent_attribute_empty ⟨"x", "<p>x</p>", []⟩ "href" (by decide) rfl

/-- C10: a per-rule exception in `parse_html_content` stores
`{"error": msg}` under that rule's key (not null), every other rule is still
processed, and the parse as a whole still returns the per-rule dictionary,
never the top-level error record. -/
theorem c10_rule_failure_isolated (env : PEnv) (html_string : String)
    (rules : List ExtractionRule)
    (hh : html_string ≠ "") (hsoup : env.soupFail = none)
    (hnd : (rules.map ExtractionRule.name).Nodup) :
    parse_html_content env html_string rules = .fields (parseFields env rules) ∧
    (∀ rule ∈ rules,
      dictLookup (parseFields env rules) rule.name = some (processRule env rule)) ∧
    (∀ rule ∈ rules, ∀ m, env.ruleExn rule.selector = some m →
      dictLookup (parseFields env rules) rule.name = some (RVal.rErrObj m)) := by
  refine ⟨by simp [parse_html_content, hh, hsoup], ?_, ?_⟩
  · intro rule hr
    exact ruleFold_lookup env rules [] rule hnd hr
  · intro rule hr m hex
    have h1 : dictLookup (parseFields env rules) rule.name = some (processRule env rule) :=
      ruleFold_lookup env rules [] rule hnd hr
    rw [h1]
    simp [processRule, hex]

/-- Witness for C10: two rules, the second of which raises; the parse
returns the dictionary with the failure object under the second key. -/
theorem c10_rule_failure_isolated_witness :
    parse_html_content pEnvW "<p>x</p>"
        [⟨"good", "h1", "text", none, false⟩, ⟨"broken", "!!bad", "text", none, false⟩]
      = .fields (parseFields pEnvW
        [⟨"good", "h1", "text", none, false⟩, ⟨"broken", "!!bad", "text", none, false⟩]) ∧
    dictLookup (parseFields pEnvW
        [⟨"good", "h1", "text", none, false⟩, ⟨"broken", "!!bad", "text", none, false⟩])
        "broken" = some (RVal.rErrObj "Invalid selector") :=
  ⟨(c10_rule_failure_isolated pEnvW "<p>x</p>"
      [⟨"good", "h1", "text", none, false⟩, ⟨"broken", "!!bad", "text", none, false⟩]
      (by decide) rfl (by decide)).1,
   (c10_rule_failure_isolated pEnvW "<p>x</p>"
      [⟨"good", "h1", "text", none, false⟩, ⟨"broken", "!!bad", "text", none, false⟩]
      (by decide) rfl (by decide)).2.2
      ⟨"broken", "!!bad", "text", none, false⟩ (by simp) "Invalid selector" rfl⟩

/-- C8: for every result `crawl_webpage` returns, `status = "error"` holds
exactly when the `error` field is non-null. -/
theorem c8_status_error_iff (env : Env) (args : CrawlArgs) :
    (crawl_webpage env args).result.status = "error" ↔
      (crawl_webpage env args).result.error ≠ none := by
  cases h : crawlTry env args with
  | error e => simp [crawl_webpage, h, applyCatch]
  | ok r =>
    rcases crawlTry_ok_inv env args r h with ⟨hs, he⟩ | ⟨hs, he⟩ <;>
      simp [crawl_webpage, h, hs, he]

/-- Witness for C8 at the concrete all-success crawl. -/
theorem c8_status_error_iff_witness :
    (crawl_webpage okEnv okArgs).result.status = "error" ↔
      (crawl_webpage okEnv okArgs).result.error ≠ none :=
  c8_status_error_iff okEnv okArgs

/-- C7: when an iframe is requested but frame discovery does not produce a
frame (element missing, content frame unresolvable, or an error), the
resolved context is the main page and the crawl behaves exactly as if no
iframe had been requested — in particular no error is reported for that
reason alone. -/
theorem c7_frame_fallback (env : Env) (args : CrawlArgs) (s : String)
    (h : env.frameFind ≠ FrameOutcome.foundFrame) :
    resolveCtx env (some s) = Ctx.page ∧
    crawl_webpage env { args with iframe_selector := some s }
      = crawl_webpage env { args with iframe_selector := none } := by
  obtain ⟨su, sh, gt, iw, ff, qe, ihh, tr, cr, sg, qa⟩ := env
  obtain ⟨u, is, wp, wi, es, ee, tm, hd⟩ := args
  cases ff with
  | foundFrame => exact absurd rfl h
  | foundNoFrame => exact ⟨rfl, rfl⟩
  | notFound => exact ⟨rfl, rfl⟩
  | pwError m => exact ⟨rfl, rfl⟩
  | otherError m => exact ⟨rfl, rfl⟩

/-- Witness for C7 with a missing frame element. -/
theorem c7_frame_fallback_witness :
    resolveCtx { okEnv with frameFind := .notFound } (some "#f") = Ctx.page ∧
    crawl_webpage { okEnv with frameFind := .notFound }
        { okArgs with iframe_selector := some "#f" }
      = crawl_webpage { okEnv with frameFind := .notFound }
        { okArgs with iframe_selector := none } :=
  c7_frame_fallback { okEnv with frameFind := .notFound } okArgs "#f" (by decide)

/-- C1 counterexample: a crawl in which reading the context's markup raises
still ends with `status = "success"`, a null `error`, and the
structured-field extraction still runs — the failure is caught inside
`_extract_content` and is not fatal, contradicting the claim. -/
theorem c1_counterexample :
    (crawl_webpage { okEnv with contentRead := .error "Page.content: Target closed" }
       { okArgs with extract_selectors := some [("f", "h1")] }).result.status
        = "success" ∧
    (crawl_webpage { okEnv with contentRead := .error "Page.content: Target closed" }
       { okArgs with extract_selectors := some [("f", "h1")] }).result.error = none ∧
    (crawl_webpage { okEnv with contentRead := .error "Page.content: Target closed" }
       { okArgs with extract_selectors := some [("f", "h1")] }).result.text = none ∧
    (crawl_webpage { okEnv with contentRead := .error "Page.content: Target closed" }
       { okArgs with extract_selectors := some [("f", "h1")] }).result.extracted_data
        = [("f", Value.vStr "x")] := by
  decide

/-- C1 (amended): when the markup read raises, the failure is caught inside
the content extractor — `text` and `html` are null, the crawl continues with
`status = "success"` and a null `error`, and structured-field extraction
still runs. -/
theorem c1_content_read_nonfatal (env : Env) (args : CrawlArgs) (m : String)
    (hs : env.setup = SetupOutcome.ok) (hh : env.setHeaders = none)
    (hn : navPropagate env = none) (hx : args.extract_element_selector = none)
    (hc : env.contentRead = .error m) :
    (crawl_webpage env args).result.status = "success" ∧
    (crawl_webpage env args).result.error = none ∧
    (crawl_webpage env args).result.text = none ∧
    (crawl_webpage env args).result.html = none ∧
    (crawl_webpage env args).result.extracted_data
      = extractSelectorsData env args.extract_selectors := by
  simp [crawl_webpage, crawlTry, hs, hh, hn, crawlResultOf, crawlStep5, hx,
    extract_content, hc, initResult]

/-- Witness for C1's amended claim at a concrete failing markup read. -/
theorem c1_content_read_nonfatal_witness :
    (crawl_webpage { okEnv with contentRead := .error "boom" } okArgs).result.status
      = "success" :=
  (c1_content_read_nonfatal { okEnv with contentRead := .error "boom" } okArgs "boom"
    rfl rfl rfl rfl rfl).1

/-- C2: evaluation at the failing input. When `playwright.start()` and
`chromium.launch()` succeed but `browser.new_page()` raises inside
`_setup_browser_and_page`, the tuple assignment in `crawl_webpage` never
happens, the local `browser` stays `None`, and the `finally` block closes
nothing: the launched browser process is acquired but released zero times,
while the crawl still returns an error result. -/
theorem c2_browser_leak_on_new_page_failure :
    (crawl_webpage { okEnv with setup := .newPageFail ⟨true, "new_page: Target closed"⟩ }
       okArgs).browserAcquired = true ∧
    (crawl_webpage { okEnv with setup := .newPageFail ⟨true, "new_page: Target closed"⟩ }
       okArgs).browserClosed = 0 ∧
    (crawl_webpage { okEnv with setup := .newPageFail ⟨true, "new_page: Target closed"⟩ }
       okArgs).result.status = "error" ∧
    (crawl_webpage { okEnv with setup := .newPageFail ⟨true, "new_page: Target closed"⟩ }
       okArgs).result.error = some "Playwright Error: new_page: Target closed" := by
  decide

/-- C3 counterexample: the spec's own scenario (a successful plain crawl of
a static page titled `Example Domain`, no `includeHtml`) returns the full
markup in `html`, not null — `crawl_webpage` has no `includeHtml` input and
always stores the markup it read in the full-content path. -/
theorem c3_counterexample :
    (crawl_webpage okEnv okArgs).result.status = "success" ∧
    (crawl_webpage okEnv okArgs).result.title = some "Example Domain" ∧
    (crawl_webpage okEnv okArgs).result.extracted_data = [] ∧
    (crawl_webpage okEnv okArgs).result.html
      = some "<html><head><title>Example Domain</title></head></html>" := by
  decide

/-- C3 (amended): there is no `includeHtml` input; in the full-content path
(`extract_element_selector` absent) the `html` field always receives the
markup that was read, whenever reading it succeeded. -/
theorem c3_html_always_full_markup (env : Env) (args : CrawlArgs) (c : String)
    (hs : env.setup = SetupOutcome.ok) (hh : env.setHeaders = none)
    (hn : navPropagate env = none) (hx : args.extract_element_selector = none)
    (hc : env.contentRead = .ok c) :
    (crawl_webpage env args).result.html = some c := by
  simp [crawl_webpage, crawlTry, hs, hh, hn, crawlResultOf, crawlStep5, hx,
    extract_content, hc, initResult]

/-- Witness for C3's amended claim at the concrete scenario crawl. -/
theorem c3_html_always_full_markup_witness :
    (crawl_webpage okEnv okArgs).result.html
      = some "<html><head><title>Example Domain</title></head></html>" :=
  c3_html_always_full_markup okEnv okArgs
    "<html><head><title>Example Domain</title></head></html>" rfl rfl rfl rfl rfl

/-- C4 counterexample: a navigation failure that is neither an idle-wait
timeout nor a redirect abort — `page.goto` itself raising
`Timeout 18000ms exceeded.` — is downgraded and the crawl still succeeds,
contradicting the claim that every navigation failure other than those two
is fatal. -/
theorem c4_counterexample :
    (crawl_webpage { okEnv with goto := some ⟨true, "Timeout 18000ms exceeded."⟩ }
       okArgs).result.status = "success" ∧
    (crawl_webpage { okEnv with goto := some ⟨true, "Timeout 18000ms exceeded."⟩ }
       okArgs).result.error = none := by
  decide

/-- C4 (amended): a `PlaywrightError` raised during navigation or the idle
wait whose message contains `Timeout` (any timeout, including the
document-load wait itself) or `net::ERR_ABORTED` (regardless of cause) is
downgraded: the crawl behaves exactly as if navigation had completed
quietly. Any other failure there is fatal: `status = "error"` with the
driver message, prefixed per exception class, surfaced in `error`. -/
theorem c4_nav_failure_classification (env : Env) (args : CrawlArgs) (e : Exn)
    (hs : env.setup = SetupOutcome.ok) (hh : env.setHeaders = none) :
    (env.goto = some e →
      (navDowngraded e = true →
        crawl_webpage env args
          = crawl_webpage { env with goto := none, idleWait := none } args) ∧
      (navDowngraded e = false →
        (crawl_webpage env args).result.status = "error" ∧
        (crawl_webpage env args).result.error = some (exnPrefix e ++ e.msg))) ∧
    (env.goto = none → env.idleWait = some e →
      (navDowngraded e = true →
        crawl_webpage env args = crawl_webpage { env with idleWait := none } args) ∧
      (navDowngraded e = false →
        (crawl_webpage env args).result.status = "error" ∧
        (crawl_webpage env args).result.error = some (exnPrefix e ++ e.msg))) := by
  obtain ⟨su, sh, gt, iw, ff, qe, ihh, tr, cr, sg, qa⟩ := env
  dsimp only at hs hh ⊢
  subst hs
  subst hh
  constructor
  · intro hg
    subst hg
    constructor
    · intro hd
      simp only [crawl_webpage, crawlTry, navPropagate, hd, if_true]
      rfl
    · intro hd
      simp [crawl_webpage, crawlTry, navPropagate, hd, applyCatch]
  · intro hg hi
    subst hg
    subst hi
    constructor
    · intro hd
      simp only [crawl_webpage, crawlTry, navPropagate, hd, if_true]
      rfl
    · intro hd
      simp [crawl_webpage, crawlTry, navPropagate, hd, applyCatch]

/-- Witness for C4's amended claim: a fatal DNS-style failure surfaces the
prefixed driver message, and a downgraded document-load timeout leaves the
crawl identical to a quiet navigation. -/
theorem c4_nav_failure_classification_witness :
    ((crawl_webpage { okEnv with goto := some ⟨true, "net::ERR_NAME_NOT_RESOLVED at x"⟩ }
        okArgs).result.status = "error" ∧
     (crawl_webpage { okEnv with goto := some ⟨true, "net::ERR_NAME_NOT_RESOLVED at x"⟩ }
        okArgs).result.error
       = some (exnPrefix ⟨true, "net::ERR_NAME_NOT_RESOLVED at x"⟩
           ++ Exn.msg ⟨true, "net::ERR_NAME_NOT_RESOLVED at x"⟩)) ∧
    crawl_webpage { okEnv with goto := some ⟨true, "Timeout 30000ms exceeded."⟩ } okArgs
      = crawl_webpage { { okEnv with goto := some ⟨true, "Timeout 30000ms exceeded."⟩ }
          with goto := none, idleWait := none } okArgs :=
  ⟨((c4_nav_failure_classification
      { okEnv with goto := some ⟨true, "net::ERR_NAME_NOT_RESOLVED at x"⟩ }
      okArgs ⟨true, "net::ERR_NAME_NOT_RESOLVED at x"⟩ rfl rfl).1 rfl).2 (by decide),
   ((c4_nav_failure_classification
      { okEnv with goto := some ⟨true, "Timeout 30000ms exceeded."⟩ }
      okArgs ⟨true, "Timeout 30000ms exceeded."⟩ rfl rfl).1 rfl).1 (by decide)⟩

end LlmsGui
